import Mathlib

/-!
Verification of the window-position reconciliation component of
`Telegram/SourceFiles/window/main_window.cpp` (class `Window::MainWindow`).

The embedding models the geometry arithmetic of
`MainWindow::countInitialGeometry`, `MainWindow::positionFromSettings` and
`MainWindow::savePosition` over unbounded integers.  Ambient process state
(the settings store, the enumerated screens, the window handle state, the
style constants `st::window*`) is gathered into explicit environment
records; `QRect` is modelled by its `(x, y, w, h)` representation and
C++ integer division (truncation toward zero) by `Int.tdiv`.
-/

namespace WindowPos

/-- Model of `QRect`, by its `(x, y, width, height)` representation. -/
structure Rect where
  x : Int
  y : Int
  w : Int
  h : Int
  deriving DecidableEq, Repr

/-- Model of `QMargins`. -/
structure Margins where
  left : Int
  top : Int
  right : Int
  bottom : Int
  deriving DecidableEq, Repr

/-- Model of `QRect::marginsRemoved`: shrink a rectangle by margins on each side. -/
def Rect.marginsRemoved (r : Rect) (m : Margins) : Rect :=
  ⟨r.x + m.left, r.y + m.top, r.w - m.left - m.right, r.h - m.top - m.bottom⟩

/-- Model of `Core::WindowPosition` — the persisted record: offsets relative to the
owning monitor, the size, the display scale at save time, the maximized flag
and the checksum of the owning monitor's name. -/
structure WindowPosition where
  x : Int
  y : Int
  w : Int
  h : Int
  scale : Int
  maximized : Bool
  moncrc : Int
  deriving DecidableEq, Repr

/-- Model of a `QScreen`: its name, global geometry and available (usable) geometry. -/
structure Screen where
  name : String
  geometry : Rect
  availableGeometry : Rect
  deriving DecidableEq, Repr

/-- The `st::window*` style constants used by the component. -/
structure St where
  windowDefaultWidth : Int
  windowDefaultHeight : Int
  windowBigDefaultWidth : Int
  windowBigDefaultHeight : Int
  windowMinWidth : Int
  windowMinHeight : Int
  deriving Repr

/-- Ambient state read by `MainWindow::countInitialGeometry`: the style
constants, the primary screen, the enumerated screens, the
`nativeWindowFrame` setting together with the window's inner and frame
geometries (used to compute the frame margins), the
`Core::Settings::ThirdColumnByDefault()` flag, and the checksum function. -/
structure Env where
  st : St
  primaryScreen : Option Screen
  screens : List Screen
  nativeWindowFrame : Bool
  windowGeometry : Rect
  windowFrameGeometry : Rect
  thirdColumnByDefault : Bool
  checksum : String → Int

/-- Modelled from the spec: `base::crc32` (from `base/crc32hash.h`, not part
of this excerpt) is "a stable 32-bit hash of a UTF-8 byte sequence"; "any
standard non-cryptographic checksum … satisfies the contract as long as it
is stable across runs for the same input bytes".  We therefore keep the
checksum abstract, as a function carried by the environment;
`MainWindow::screenNameChecksum` applies it to the screen name. -/
def screenNameChecksum (env : Env) (name : String) : Int :=
  env.checksum name

/-- The available geometry of the primary screen, or the default-size
rectangle at the origin when there is no primary screen
(`countInitialGeometry`, variable `primaryAvailable`). -/
def primaryAvailable (env : Env) : Rect :=
  match env.primaryScreen with
  | some s => s.availableGeometry
  | none => ⟨0, 0, env.st.windowDefaultWidth, env.st.windowDefaultHeight⟩

/-- The centered default rectangle on the primary monitor
(`countInitialGeometry`, variable `initial`): the fallback result. -/
def initialRect (env : Env) : Rect :=
  let pa := primaryAvailable env
  let initialWidth := if env.thirdColumnByDefault
    then env.st.windowBigDefaultWidth else env.st.windowDefaultWidth
  let initialHeight := if env.thirdColumnByDefault
    then env.st.windowBigDefaultHeight else env.st.windowDefaultHeight
  ⟨pa.x + max (Int.tdiv (pa.w - initialWidth) 2) 0,
   pa.y + max (Int.tdiv (pa.h - initialHeight) 2) 0,
   initialWidth,
   initialHeight⟩

/-- The screen whose name checksum equals the saved `moncrc`
(`countInitialGeometry`, the `screen` lambda: first match wins). -/
def findScreen (env : Env) (position : WindowPosition) : Option Screen :=
  env.screens.find? fun s => position.moncrc == screenNameChecksum env s.name

/-- The window-frame margins (`countInitialGeometry`, the `frame` lambda):
zero unless native window frame is active, otherwise the difference between
the window's frame geometry and inner geometry. -/
def frameMargins (env : Env) : Margins :=
  if env.nativeWindowFrame then
    let inner := env.windowGeometry
    let outer := env.windowFrameGeometry
    ⟨inner.x - outer.x,
     inner.y - outer.y,
     outer.x + outer.w - inner.x - inner.w,
     outer.y + outer.h - inner.y - inner.h⟩
  else ⟨0, 0, 0, 0⟩

/-- The usable area for the window's inner rectangle on a screen
(`countInitialGeometry`, variable `spaceForInner`). -/
def usableFor (env : Env) (screen : Screen) : Rect :=
  screen.availableGeometry.marginsRemoved (frameMargins env)

/-- One axis of the edge-overflow adjustment of `countInitialGeometry`
(the `rightPoint`/`bottomPoint` blocks, which are the same code on the two
axes): a span `[p, p + len)` against the usable span `[lo, lo + size)`.
If the far edge overflows, shift back by the overflow when that keeps the
near edge at or beyond `lo`; otherwise clamp the near edge to `lo` and
shrink the length by the remaining overflow. -/
def fitSpan (lo size p len : Int) : Int × Int :=
  let farPoint := p + len
  let screenFarPoint := lo + size
  if farPoint > screenFarPoint then
    let distance := farPoint - screenFarPoint
    let newPos := p - distance
    if newPos ≥ lo then
      (newPos, len)
    else
      let newFarPoint := lo + len
      let newDistance := newFarPoint - screenFarPoint
      (lo, len - newDistance)
  else (p, len)

/-- Steps 6–9 of the reconciliation (`countInitialGeometry` after the
usable-area size gate): clamp `x, y` up to the usable origin, clamp `w, h`
down to the usable size, fit both spans against the usable area's far
edges, and translate back into global coordinates. -/
def reconciled (env : Env) (position : WindowPosition) (screen : Screen) :
    Rect :=
  let screenGeometry := screen.geometry
  let spaceForInner := usableFor env screen
  let x := spaceForInner.x - screenGeometry.x
  let y := spaceForInner.y - screenGeometry.y
  let w := spaceForInner.w
  let h := spaceForInner.h
  let px := if position.x < x then x else position.x
  let py := if position.y < y then y else position.y
  let pw := if position.w > w then w else position.w
  let ph := if position.h > h then h else position.h
  let xw := fitSpan x w px pw
  let yh := fitSpan y h py ph
  ⟨xw.1 + screenGeometry.x, yh.1 + screenGeometry.y, xw.2, yh.2⟩

/-- Model of `MainWindow::countInitialGeometry`: reconcile a saved window position
with the current monitor layout, falling back to the centered default
rectangle when the saved size is zero, when no screen matches the saved
monitor checksum, when the matched screen's usable area is smaller than the
minimum window size, or when a minimum-size window at the computed origin
would extend past the screen's far edges.  The function is total: it never
signals an error. -/
def countInitialGeometry (env : Env) (position : WindowPosition) : Rect :=
  let initial := initialRect env
  if position.w = 0 ∨ position.h = 0 then initial
  else
    match findScreen env position with
    | none => initial
    | some screen =>
      let screenGeometry := screen.geometry
      let spaceForInner := usableFor env screen
      if spaceForInner.w < env.st.windowMinWidth
          ∨ spaceForInner.h < env.st.windowMinHeight then initial
      else
        let r := reconciled env position screen
        if r.x + env.st.windowMinWidth > screenGeometry.x + screenGeometry.w
            ∨ r.y + env.st.windowMinHeight
              > screenGeometry.y + screenGeometry.h then initial
        else r

/-- Model of `Qt::WindowState` (the values relevant to `MainWindow::savePosition`). -/
inductive WinState where
  | noState
  | minimized
  | maximized
  | fullScreen
  | active
  deriving DecidableEq, Repr

/-- Ambient state read by `MainWindow::savePosition`: the style constants,
the previously stored position (`settings().windowPosition()`), the window
handle's state (`windowHandle()->windowState()`), visibility, the
"position initialized" flag, the body rectangle in global coordinates
(`body()->mapToGlobal(body()->rect())`), the right column width (`0` when
there is no right column), the current scale (`cScale()`), the enumerated
screens and the checksum function (see `screenNameChecksum`). -/
structure SaveEnv where
  st : St
  savedPosition : WindowPosition
  windowState : WinState
  visible : Bool
  positionInited : Bool
  bodyGlobal : Rect
  rightColumnWidth : Int
  scale : Int
  screens : List Screen
  checksum : String → Int

/-- The state `savePosition` actually dispatches on: when called with
`Qt::WindowActive` it re-reads `windowHandle()->windowState()`. -/
def effectiveState (env : SaveEnv) (state : WinState) : WinState :=
  if state = WinState.active then env.windowState else state

/-- Model of `QRect::center()`: integer midpoint of `x1 = x` and `x2 = x + w - 1`
(C++ division truncates toward zero). -/
def screenCenter (g : Rect) : Int × Int :=
  (Int.tdiv (g.x + (g.x + g.w - 1)) 2, Int.tdiv (g.y + (g.y + g.h - 1)) 2)

/-- Model of the loop distance
`(screen->geometry().center() - QPoint(centerX, centerY)).manhattanLength()`:
the Manhattan distance from a screen's center to the window's center. -/
def screenDelta (s : Screen) (cx cy : Int) : Nat :=
  ((screenCenter s.geometry).1 - cx).natAbs
    + ((screenCenter s.geometry).2 - cy).natAbs

/-- The screen-selection loop of `savePosition`, after its first iteration:
`chosen` and `minDelta` hold the best screen so far and its distance; a
later screen replaces it only when strictly closer (`delta < minDelta`). -/
def chooseScreenGo (cx cy : Int) :
    List Screen → Screen → Nat → Screen
  | [], chosen, _ => chosen
  | s :: rest, chosen, minDelta =>
    let delta := screenDelta s cx cy
    if delta < minDelta then chooseScreenGo cx cy rest s delta
    else chooseScreenGo cx cy rest chosen minDelta

/-- The screen-selection loop of `savePosition`: `chosen` starts as null, so
the first screen is always taken (`!chosen ||` short-circuits); afterwards a
strictly smaller Manhattan distance wins.  `none` iff there are no screens. -/
def chooseScreen (cx cy : Int) : List Screen → Option Screen
  | [] => none
  | s :: rest => some (chooseScreenGo cx cy rest s (screenDelta s cx cy))

/-- The record `savePosition` computes (`realPosition`), as a function of
the *effective* state (see `effectiveState`).  Maximized: only the
`maximized` flag is set on the previously stored record.  Otherwise: the
global body rectangle (width less the right column), the current scale, and
— when a nearest screen exists — `x, y` relative to that screen's origin
together with its name checksum. -/
def computeRealPosition (env : SaveEnv) (state : WinState) : WindowPosition :=
  if state = WinState.maximized then
    { env.savedPosition with maximized := true }
  else
    let r := env.bodyGlobal
    let base : WindowPosition :=
      { x := r.x
        y := r.y
        w := r.w - env.rightColumnWidth
        h := r.h
        scale := env.scale
        maximized := false
        moncrc := 0 }
    let centerX := base.x + Int.tdiv base.w 2
    let centerY := base.y + Int.tdiv base.h 2
    match chooseScreen centerX centerY env.screens with
    | none => base
    | some chosen =>
      { base with
        x := base.x - chosen.geometry.x
        y := base.y - chosen.geometry.y
        moncrc := env.checksum chosen.name }

/-- Model of `MainWindow::savePosition`: `some p` means the settings store is written
with `p` (`setWindowPosition` followed by `saveSettingsDelayed`); `none`
means no write happens.  No write when the effective state is minimized,
the window is invisible, or position tracking is uninitialized; the
computed record is written only when its size passes the minimum-size check
and it differs from the stored record in at least one field. -/
def savePosition (env : SaveEnv) (state : WinState) : Option WindowPosition :=
  let st := effectiveState env state
  if st = WinState.minimized ∨ env.visible = false ∨ env.positionInited = false then
    none
  else
    let savedPosition := env.savedPosition
    let realPosition := computeRealPosition env st
    if env.st.windowMinWidth ≤ realPosition.w
        ∧ env.st.windowMinHeight ≤ realPosition.h then
      if realPosition ≠ savedPosition then some realPosition else none
    else none

/-- Modelled from the spec: the debounce timer lambda calls `savePosition()`
whose default argument, `Qt::WindowActive`, is declared in `main_window.h`
(not part of this excerpt); §5 of the spec says the timer fire invokes the
reconcile-on-save operation, and the §8 scenario has a timer fire after
minimization hit the minimized gate, which requires re-reading the window
handle's state. -/
def savePositionOnTimer (env : SaveEnv) : Option WindowPosition :=
  savePosition env WinState.active

/-! ### Concrete environments used by witnesses and counterexamples -/

/-- Concrete style constants (the values are irrelevant to the theorems;
only the relations checked by the witnesses matter). -/
def stC : St := ⟨800, 600, 1100, 600, 380, 480⟩

/-- A 1920×1080 monitor named "A" whose available geometry equals its
geometry. -/
def screenA : Screen := ⟨"A", ⟨0, 0, 1920, 1080⟩, ⟨0, 0, 1920, 1080⟩⟩

/-- A concrete environment: the single screen "A" is primary, no native
frame, no third column, and the checksum maps every name to `7`. -/
def env0 : Env :=
  ⟨stC, some screenA, [screenA], false, ⟨0, 0, 0, 0⟩, ⟨0, 0, 0, 0⟩, false,
    fun _ => 7⟩

/-- The saved position of the spec's right-edge-overflow scenario. -/
def pos1800 : WindowPosition := ⟨1800, 50, 400, 300, 100, false, 7⟩

/-! ### Claims about `countInitialGeometry` -/

/-- C1: for every saved position that cannot be reconciled — zero width or
height, no screen matching the saved monitor checksum, or a matched screen
whose usable area is smaller than the minimum window size in either
dimension — `countInitialGeometry` returns the centered default rectangle
on the primary monitor (`initialRect`); being a total function into `Rect`,
it never signals an error. -/
theorem countInitialGeometry_fallback_of_unreconcilable
    (env : Env) (position : WindowPosition)
    (h : position.w = 0 ∨ position.h = 0
      ∨ findScreen env position = none
      ∨ ∃ screen, findScreen env position = some screen
          ∧ ((usableFor env screen).w < env.st.windowMinWidth
            ∨ (usableFor env screen).h < env.st.windowMinHeight)) :
    countInitialGeometry env position = initialRect env := by
  unfold countInitialGeometry
  rcases h with h | h | h | ⟨screen, hfind, hsz⟩
  · simp [h]
  · simp [h]
  · split
    · rfl
    · rw [h]
  · split
    · rfl
    · rw [hfind]
      simp only
      rw [if_pos hsz]

/-- Witness for C1 at a concrete input: a saved position with `w = 0` in
the concrete one-screen environment falls back to the default rectangle. -/
theorem countInitialGeometry_fallback_witness :
    countInitialGeometry env0 ⟨100, 100, 0, 300, 100, false, 7⟩
      = initialRect env0 :=
  countInitialGeometry_fallback_of_unreconcilable env0
    ⟨100, 100, 0, 300, 100, false, 7⟩ (Or.inl rfl)

/-- C2: when the far edge of a span overflows the usable area's far edge,
the span is shifted back by the overflow if that keeps its near edge at or
beyond the usable near edge, and otherwise the near edge is clamped and the
length shrunk by the remaining overflow; and on monitor "A" with usable
area `(0, 0, 1920, 1080)`, the saved position `(1800, 50, 400, 300)` whose
checksum matches "A" reconciles to `(1520, 50, 400, 300)`. -/
theorem fitSpan_overflow_shift_and_scenario :
    (∀ lo size p len : Int, p + len > lo + size →
        p - (p + len - (lo + size)) ≥ lo →
        fitSpan lo size p len = (p - (p + len - (lo + size)), len))
    ∧ (∀ lo size p len : Int, p + len > lo + size →
        p - (p + len - (lo + size)) < lo →
        fitSpan lo size p len = (lo, len - (lo + len - (lo + size))))
    ∧ countInitialGeometry env0 pos1800 = ⟨1520, 50, 400, 300⟩ := by
  refine ⟨?_, ?_, ?_⟩
  · intro lo size p len h1 h2
    simp only [fitSpan]
    rw [if_pos h1, if_pos h2]
  · intro lo size p len h1 h2
    simp only [fitSpan]
    rw [if_pos h1, if_neg (not_le.mpr h2)]
  · rfl

/-- Witness for C2 at concrete inputs: a shift that stays in bounds and an
overflow so large that the near edge is clamped and the length shrunk. -/
theorem fitSpan_overflow_shift_witness :
    fitSpan 0 1920 1800 400 = (1520, 400) ∧ fitSpan 0 100 50 200 = (0, 100) := by
  constructor
  · have h := fitSpan_overflow_shift_and_scenario.1 0 1920 1800 400
      (by decide) (by decide)
    simpa using h
  · have h := fitSpan_overflow_shift_and_scenario.2.1 0 100 50 200
      (by decide) (by decide)
    simpa using h

/-- C9: whenever a screen matches the saved checksum but a minimum-size
window placed at the reconciled origin would extend past that screen's far
edges, `countInitialGeometry` returns the centered default fallback. -/
theorem countInitialGeometry_fallback_of_min_footprint
    (env : Env) (position : WindowPosition) (screen : Screen)
    (hfind : findScreen env position = some screen)
    (hfail : (reconciled env position screen).x + env.st.windowMinWidth
        > screen.geometry.x + screen.geometry.w
      ∨ (reconciled env position screen).y + env.st.windowMinHeight
        > screen.geometry.y + screen.geometry.h) :
    countInitialGeometry env position = initialRect env := by
  simp only [countInitialGeometry, hfind]
  split_ifs with h0 hg
  · rfl
  · rfl
  · rfl

/-- Witness for C9 at a concrete input: a small window near the bottom of
screen "A" whose reconciled origin leaves no room for a minimum-height
window, so the default is returned. -/
theorem countInitialGeometry_min_footprint_witness :
    countInitialGeometry env0 ⟨0, 700, 400, 300, 100, false, 7⟩
      = initialRect env0 :=
  countInitialGeometry_fallback_of_min_footprint env0
    ⟨0, 700, 400, 300, 100, false, 7⟩ screenA (by decide) (by decide)

/-- A saved position fully inside screen "A"'s usable area, but so close to
the right edge that a minimum-width window at its origin would not fit. -/
def posCE : WindowPosition := ⟨1800, 50, 100, 300, 100, false, 7⟩

/-- C4, counterexample: `posCE = (1800, 50, 100, 300)` lies fully inside
the matched monitor's usable area `(0, 0, 1920, 1080)` (which here is also
the monitor's geometry, with zero frame margins), yet `countInitialGeometry`
returns the centered default instead of the translated saved rectangle,
because `1800 + windowMinWidth > 1920`. -/
theorem countInitialGeometry_inside_counterexample :
    findScreen env0 posCE = some screenA
    ∧ usableFor env0 screenA = ⟨0, 0, 1920, 1080⟩
    ∧ screenA.geometry = ⟨0, 0, 1920, 1080⟩
    ∧ 0 ≤ posCE.x ∧ 0 ≤ posCE.y
    ∧ posCE.x + posCE.w ≤ 1920 ∧ posCE.y + posCE.h ≤ 1080
    ∧ countInitialGeometry env0 posCE ≠ ⟨1800, 50, 100, 300⟩
    ∧ countInitialGeometry env0 posCE = initialRect env0 := by
  decide

/-- C4 (amended): a saved position with nonzero size fully inside the
matched monitor's usable area is returned translated into global
coordinates, provided additionally that the usable area is at least the
minimum window size in both dimensions and that a minimum-size window at
the saved offset stays within the monitor's geometry (the final sanity
check of `countInitialGeometry`). -/
theorem countInitialGeometry_inside_translates
    (env : Env) (position : WindowPosition) (screen : Screen)
    (hfind : findScreen env position = some screen)
    (hw0 : position.w ≠ 0) (hh0 : position.h ≠ 0)
    (hx : (usableFor env screen).x - screen.geometry.x ≤ position.x)
    (hy : (usableFor env screen).y - screen.geometry.y ≤ position.y)
    (hxw : position.x + position.w
      ≤ (usableFor env screen).x - screen.geometry.x + (usableFor env screen).w)
    (hyh : position.y + position.h
      ≤ (usableFor env screen).y - screen.geometry.y + (usableFor env screen).h)
    (hgw : env.st.windowMinWidth ≤ (usableFor env screen).w)
    (hgh : env.st.windowMinHeight ≤ (usableFor env screen).h)
    (hfx : position.x + screen.geometry.x + env.st.windowMinWidth
      ≤ screen.geometry.x + screen.geometry.w)
    (hfy : position.y + screen.geometry.y + env.st.windowMinHeight
      ≤ screen.geometry.y + screen.geometry.h) :
    countInitialGeometry env position
      = ⟨position.x + screen.geometry.x, position.y + screen.geometry.y,
         position.w, position.h⟩ := by
  have hfit : ∀ lo size p len : Int, p + len ≤ lo + size →
      fitSpan lo size p len = (p, len) := by
    intro lo size p len h
    simp only [fitSpan]
    rw [if_neg (not_lt.mpr h)]
  have hrec : reconciled env position screen
      = ⟨position.x + screen.geometry.x, position.y + screen.geometry.y,
         position.w, position.h⟩ := by
    simp only [reconciled]
    rw [if_neg (not_lt.mpr hx), if_neg (not_lt.mpr hy),
      if_neg (not_lt.mpr (show position.w ≤ (usableFor env screen).w by omega)),
      if_neg (not_lt.mpr (show position.h ≤ (usableFor env screen).h by omega)),
      hfit _ _ _ _ (by omega), hfit _ _ _ _ (by omega)]
  simp only [countInitialGeometry, hfind]
  split_ifs with h0 hg hf
  · exact absurd h0 (not_or.mpr ⟨hw0, hh0⟩)
  · exact absurd hg (not_or.mpr ⟨not_lt.mpr hgw, not_lt.mpr hgh⟩)
  · exfalso
    rw [hrec] at hf
    dsimp only at hf
    omega
  · exact hrec

/-- Witness for amended C4 at a concrete input: `(100, 100, 400, 500)` is
fully inside screen "A"'s usable area and is returned unchanged (the
monitor's origin is the global origin). -/
theorem countInitialGeometry_inside_translates_witness :
    countInitialGeometry env0 ⟨100, 100, 400, 500, 100, false, 7⟩
      = ⟨100, 100, 400, 500⟩ :=
  countInitialGeometry_inside_translates env0
    ⟨100, 100, 400, 500, 100, false, 7⟩ screenA (by decide) (by decide)
    (by decide) (by decide) (by decide) (by decide) (by decide) (by decide)
    (by decide) (by decide) (by decide)


/-! ### Claims about `savePosition` -/

/-- In the maximized case the computed record is the stored one with only
the `maximized` flag set. -/
lemma computeRealPosition_maximized (env : SaveEnv) :
    computeRealPosition env WinState.maximized
      = { env.savedPosition with maximized := true } := by
  simp [computeRealPosition]

/-- A concrete save environment: visible, position-initialized, window not
minimized, body at `(100, 100, 500, 600)`, no right column, scale `110`,
the single screen "A", stored position empty. -/
def envSave0 : SaveEnv :=
  ⟨stC, ⟨0, 0, 0, 0, 0, false, 0⟩, WinState.noState, true, true,
    ⟨100, 100, 500, 600⟩, 0, 110, [screenA], fun _ => 7⟩

/-- The record `envSave0` saves: body rectangle relative to screen "A",
scale `110`, checksum `7`. -/
def realPos0 : WindowPosition := ⟨100, 100, 500, 600, 110, false, 7⟩

/-- C6: `savePosition` is a no-op — it performs no settings write — when
the effective window state is minimized, or the window is not visible, or
the position-initialized signal has not been received; in particular a
debounce-timer fire (which passes `Qt::WindowActive`, re-reading the
window handle's state) after the window becomes minimized produces no
update. -/
theorem savePosition_noop_of_gates :
    (∀ (env : SaveEnv) (state : WinState),
        effectiveState env state = WinState.minimized
          ∨ env.visible = false ∨ env.positionInited = false →
        savePosition env state = none)
    ∧ (∀ env : SaveEnv, env.windowState = WinState.minimized →
        savePositionOnTimer env = none) := by
  have h1 : ∀ (env : SaveEnv) (state : WinState),
      effectiveState env state = WinState.minimized
        ∨ env.visible = false ∨ env.positionInited = false →
      savePosition env state = none := by
    intro env state h
    simp only [savePosition]
    rw [if_pos h]
  refine ⟨h1, fun env h => h1 env WinState.active (Or.inl ?_)⟩
  simpa [effectiveState] using h

/-- Witness for C6 at a concrete input: with the window handle minimized,
both a direct minimized-state call and a timer fire write nothing. -/
theorem savePosition_noop_witness :
    savePosition { envSave0 with windowState := WinState.minimized }
        WinState.minimized = none
    ∧ savePositionOnTimer { envSave0 with windowState := WinState.minimized }
        = none :=
  ⟨savePosition_noop_of_gates.1 _ WinState.minimized (Or.inl rfl),
   savePosition_noop_of_gates.2 _ rfl⟩

/-- C7: whenever `savePosition` runs with the window maximized and writes a
record, that record is the previously stored one with only the `maximized`
flag set — `x, y, w, h`, `scale` and `moncrc` keep their stored values. -/
theorem savePosition_maximized_keeps_rect
    (env : SaveEnv) (state : WinState) (p : WindowPosition)
    (hmax : effectiveState env state = WinState.maximized)
    (hw : savePosition env state = some p) :
    p = { env.savedPosition with maximized := true } := by
  simp only [savePosition] at hw
  split_ifs at hw with hgate hsz hne
  rw [hmax, computeRealPosition_maximized] at hw
  exact (Option.some.inj hw).symm

/-- Witness for C7 at a concrete input: a stored `(5, 6, 500, 600)` record
is re-written with only the flag flipped when the window is maximized. -/
theorem savePosition_maximized_witness :
    savePosition { envSave0 with savedPosition := ⟨5, 6, 500, 600, 100, false, 7⟩ }
        WinState.maximized = some ⟨5, 6, 500, 600, 100, true, 7⟩
    ∧ (⟨5, 6, 500, 600, 100, true, 7⟩ : WindowPosition)
        = { (⟨5, 6, 500, 600, 100, false, 7⟩ : WindowPosition) with
            maximized := true } :=
  ⟨by decide,
   savePosition_maximized_keeps_rect
     { envSave0 with savedPosition := ⟨5, 6, 500, 600, 100, false, 7⟩ }
     WinState.maximized ⟨5, 6, 500, 600, 100, true, 7⟩ (by decide) (by decide)⟩

/-- C5: the value-equality short-circuit.  First: when the computed record
equals the stored one field for field, no write happens.  Second
(idempotence): after a write of `p`, running `savePosition` again with the
same current-rectangle input and `p` now stored performs no second write. -/
theorem savePosition_skips_identical :
    (∀ (env : SaveEnv) (state : WinState),
        computeRealPosition env (effectiveState env state) = env.savedPosition →
        savePosition env state = none)
    ∧ (∀ (env : SaveEnv) (state : WinState) (p : WindowPosition),
        savePosition env state = some p →
        savePosition { env with savedPosition := p } state = none) := by
  have hfirst : ∀ (env : SaveEnv) (state : WinState),
      computeRealPosition env (effectiveState env state) = env.savedPosition →
      savePosition env state = none := by
    intro env state h
    simp only [savePosition]
    split_ifs with hgate hsz hne
    · rfl
    · exact absurd h hne
    · rfl
    · rfl
  refine ⟨hfirst, ?_⟩
  intro env state p hw
  simp only [savePosition] at hw
  split_ifs at hw with hgate hsz hne
  have hp : computeRealPosition env (effectiveState env state) = p :=
    Option.some.inj hw
  have hst : effectiveState { env with savedPosition := p } state
      = effectiveState env state := rfl
  have hreal : computeRealPosition { env with savedPosition := p }
      (effectiveState env state) = p := by
    by_cases hm : effectiveState env state = WinState.maximized
    · rw [hm] at hp ⊢
      rw [computeRealPosition_maximized] at hp ⊢
      rw [← hp]
    · rw [← hp]
      simp only [computeRealPosition, if_neg hm]
  exact hfirst _ state (hst ▸ hreal)

/-- Witness for C5 at a concrete input: `envSave0` writes `realPos0`; with
`realPos0` stored, the identical input writes nothing the second time. -/
theorem savePosition_skips_identical_witness :
    savePosition envSave0 WinState.noState = some realPos0
    ∧ savePosition { envSave0 with savedPosition := realPos0 }
        WinState.noState = none :=
  ⟨by decide,
   savePosition_skips_identical.2 envSave0 WinState.noState realPos0 (by decide)⟩

/-- C10: `savePosition` never persists a record with `w` below the minimum
width or `h` below the minimum height; consequently, in the maximized case
with an undersized stored record, even the flag-only change is not
persisted. -/
theorem savePosition_min_size_floor :
    (∀ (env : SaveEnv) (state : WinState) (p : WindowPosition),
        savePosition env state = some p →
        env.st.windowMinWidth ≤ p.w ∧ env.st.windowMinHeight ≤ p.h)
    ∧ (∀ (env : SaveEnv) (state : WinState),
        effectiveState env state = WinState.maximized →
        env.savedPosition.w < env.st.windowMinWidth
          ∨ env.savedPosition.h < env.st.windowMinHeight →
        savePosition env state = none) := by
  constructor
  · intro env state p hw
    simp only [savePosition] at hw
    split_ifs at hw with hgate hsz hne
    exact Option.some.inj hw ▸ hsz
  · intro env state hmax hsmall
    have hreal : computeRealPosition env (effectiveState env state)
        = { env.savedPosition with maximized := true } := by
      rw [hmax, computeRealPosition_maximized]
    simp only [savePosition]
    split_ifs with hgate hsz hne
    · rfl
    · exfalso
      rw [hreal] at hsz
      rcases hsmall with h | h
      · exact absurd hsz.1 (not_le.mpr h)
      · exact absurd hsz.2 (not_le.mpr h)
    · rfl
    · rfl

/-- Witness for C10 at concrete inputs: the record written by `envSave0`
satisfies the size floor, and a maximized save with an undersized stored
record writes nothing. -/
theorem savePosition_min_size_floor_witness :
    (stC.windowMinWidth ≤ realPos0.w ∧ stC.windowMinHeight ≤ realPos0.h)
    ∧ savePosition
        { envSave0 with savedPosition := ⟨0, 0, 100, 100, 100, false, 7⟩ }
        WinState.maximized = none :=
  ⟨savePosition_min_size_floor.1 envSave0 WinState.noState realPos0 (by decide),
   savePosition_min_size_floor.2
     { envSave0 with savedPosition := ⟨0, 0, 100, 100, 100, false, 7⟩ }
     WinState.maximized (by decide) (by decide)⟩


/-- The selection loop invariant: starting from `chosen` with its own
distance, `chooseScreenGo` returns a screen of `chosen :: rest` whose
distance to the window center is minimal among `chosen :: rest`. -/
lemma chooseScreenGo_min (cx cy : Int) :
    ∀ (rest : List Screen) (chosen : Screen),
      chooseScreenGo cx cy rest chosen (screenDelta chosen cx cy)
          ∈ chosen :: rest
      ∧ ∀ t ∈ chosen :: rest,
          screenDelta (chooseScreenGo cx cy rest chosen
            (screenDelta chosen cx cy)) cx cy ≤ screenDelta t cx cy := by
  intro rest
  induction rest with
  | nil =>
    intro chosen
    refine ⟨List.mem_cons_self _ _, ?_⟩
    intro t ht
    rw [List.mem_singleton] at ht
    rw [ht]
    exact le_refl _
  | cons s rest ih =>
    intro chosen
    simp only [chooseScreenGo]
    by_cases hlt : screenDelta s cx cy < screenDelta chosen cx cy
    · rw [if_pos hlt]
      obtain ⟨hmem, hmin⟩ := ih s
      refine ⟨?_, ?_⟩
      · rcases List.mem_cons.mp hmem with h | h
        · rw [h]
          exact List.mem_cons_of_mem _ (List.mem_cons_self _ _)
        · exact List.mem_cons_of_mem _ (List.mem_cons_of_mem _ h)
      · intro t ht
        rcases List.mem_cons.mp ht with h | h
        · rw [h]
          exact le_trans (hmin s (List.mem_cons_self _ _)) (le_of_lt hlt)
        · exact hmin t h
    · rw [if_neg hlt]
      obtain ⟨hmem, hmin⟩ := ih chosen
      refine ⟨?_, ?_⟩
      · rcases List.mem_cons.mp hmem with h | h
        · rw [h]
          exact List.mem_cons_self _ _
        · exact List.mem_cons_of_mem _ (List.mem_cons_of_mem _ h)
      · intro t ht
        rcases List.mem_cons.mp ht with h | h
        · rw [h]
          exact hmin chosen (List.mem_cons_self _ _)
        · rcases List.mem_cons.mp h with h2 | h2
          · rw [h2]
            exact le_trans (hmin chosen (List.mem_cons_self _ _))
              (not_lt.mp hlt)
          · exact hmin t (List.mem_cons_of_mem _ h2)

/-- A second monitor to the right of screen "A". -/
def screenB : Screen := ⟨"B", ⟨1920, 0, 1000, 1000⟩, ⟨1920, 0, 1000, 1000⟩⟩

/-- A save environment whose window body sits on screen "B": two screens,
body at `(2000, 100, 500, 600)`, checksums `7` for "A" and `8` for others. -/
def envB : SaveEnv :=
  { envSave0 with
    screens := [screenA, screenB]
    bodyGlobal := ⟨2000, 100, 500, 600⟩
    checksum := fun n => if n = "A" then 7 else 8 }

/-- C8: the screen-selection loop of `savePosition` returns a screen whose
center has minimal Manhattan distance to the window rectangle's center
(first such screen on ties); and in the non-maximized case the computed
record stores the body rectangle as an offset from the chosen screen's
origin, together with that screen's name checksum and the current scale. -/
theorem savePosition_nearest_screen :
    (∀ (cx cy : Int) (screens : List Screen) (s : Screen),
        chooseScreen cx cy screens = some s →
        s ∈ screens ∧ ∀ t ∈ screens, screenDelta s cx cy ≤ screenDelta t cx cy)
    ∧ (∀ (env : SaveEnv) (state : WinState) (chosen : Screen),
        effectiveState env state ≠ WinState.maximized →
        chooseScreen
          (env.bodyGlobal.x
            + Int.tdiv (env.bodyGlobal.w - env.rightColumnWidth) 2)
          (env.bodyGlobal.y + Int.tdiv env.bodyGlobal.h 2)
          env.screens = some chosen →
        computeRealPosition env (effectiveState env state)
          = { x := env.bodyGlobal.x - chosen.geometry.x,
              y := env.bodyGlobal.y - chosen.geometry.y,
              w := env.bodyGlobal.w - env.rightColumnWidth,
              h := env.bodyGlobal.h,
              scale := env.scale,
              maximized := false,
              moncrc := env.checksum chosen.name }) := by
  constructor
  · intro cx cy screens s hs
    cases screens with
    | nil => exact Option.noConfusion hs
    | cons a rest =>
      have h := chooseScreenGo_min cx cy rest a
      rw [Option.some.inj hs] at h
      exact h
  · intro env state chosen hne hch
    simp only [computeRealPosition]
    rw [if_neg hne, hch]

/-- Witness for C8 at a concrete input: with the body on screen "B", the
loop chooses "B" (Manhattan distance `268` against `1430` for "A") and the
record is stored relative to "B" with checksum `8` and scale `110`. -/
theorem savePosition_nearest_screen_witness :
    (screenB ∈ [screenA, screenB]
      ∧ ∀ t ∈ [screenA, screenB],
          screenDelta screenB 2250 400 ≤ screenDelta t 2250 400)
    ∧ computeRealPosition envB (effectiveState envB WinState.noState)
        = ⟨80, 100, 500, 600, 110, false, 8⟩ :=
  ⟨savePosition_nearest_screen.1 2250 400 [screenA, screenB] screenB
      (by decide),
   savePosition_nearest_screen.2 envB WinState.noState screenB
      (by decide) (by decide)⟩


end WindowPos
